import Mathlib

/-!
Verification development for the Huawei eSDK K8S CSI plugin layer.

The definitions below are a shallow embedding of the Go sources:
`csi/backend/plugin/oceanstor-san.go`, `csi/backend/plugin/fusionstorage-san.go`,
`csi/driver/controller.go` and the OceanstorDTree plugin file.  Machine-level
collaborators that live outside this repository (the array REST client, the
Go `json` package, `utils.ReflectCall`, attacher construction) are abstracted
as environment oracles; every branch of the embedded functions mirrors a
branch of the corresponding Go function.
-/

namespace HuaweiCSI

/-- Model of a Go `interface{}` value; only the shapes the embedded code
inspects are distinguished.  `other` covers every remaining dynamic type. -/
inductive GoVal where
  | bool (b : Bool)
  | str (s : String)
  | int (n : Int)
  | other
deriving DecidableEq, Repr

/-- Model of `map[string]interface{}` as an association list (a Go map holds
one binding per key; the embedded operations preserve key uniqueness). -/
abbrev GoMap := List (String × GoVal)

/-- Lookup in a `GoMap`, modelling `m[k]` together with its `ok` flag. -/
def assocLookup (m : GoMap) (k : String) : Option GoVal :=
  match m with
  | [] => none
  | (k2, v) :: rest => if k2 == k then some v else assocLookup rest k

/-- Update in a `GoMap`, modelling the Go assignment `m[k] = v`. -/
def assocSet (m : GoMap) (k : String) (v : GoVal) : GoMap :=
  match m with
  | [] => [(k, v)]
  | (k2, v2) :: rest => if k2 == k then (k2, v) :: rest else (k2, v2) :: assocSet rest k v

/-- State of one `OceanstorSanPlugin` (the fields of the Go struct in
`oceanstor-san.go` that the verified operations read or write).
`metroConfigured` models `metroRemotePlugin != nil`, `metroOnline` models
`metroRemotePlugin.storageOnline`, `replicaConfigured` models
`replicaRemotePlugin != nil`.  `loggedIn` is a ghost field recording whether
the array-side session opened by `cli.Login` is currently open; `cli.Login`
sets it and `cli.Logout` clears it. -/
structure OceanstorSanPlugin where
  storageOnline : Bool
  clientCount : Int
  loggedIn : Bool
  metroConfigured : Bool
  metroOnline : Bool
  replicaConfigured : Bool
deriving DecidableEq, Repr

/-! ## Session reference counting (`mutexGetClient` / `mutexReleaseClient`) -/

/-- Embedding of `OceanstorSanPlugin.mutexGetClient` (oceanstor-san.go:400).
`loginOk` is the outcome of the `p.cli.Login(ctx)` call the source makes when
the plugin is offline or unreferenced.  Returns the new state and whether the
acquire succeeded (`err == nil`). -/
def mutexGetClient (loginOk : Bool) (p : OceanstorSanPlugin) :
    OceanstorSanPlugin × Bool :=
  if !p.storageOnline || p.clientCount == 0 then
    if loginOk then
      ({ p with storageOnline := true, loggedIn := true, clientCount := p.clientCount + 1 }, true)
    else
      ({ p with storageOnline := false }, false)
  else
    ({ p with clientCount := p.clientCount + 1 }, true)

/-- Embedding of `OceanstorSanPlugin.mutexReleaseClient` (oceanstor-san.go:340):
decrement the holder count; exactly when it reaches zero, call `cli.Logout`
(clearing `loggedIn`) and set `storageOnline = false`.  The returned `Bool`
records whether `Logout` was invoked. -/
def mutexReleaseClient (p : OceanstorSanPlugin) : OceanstorSanPlugin × Bool :=
  if p.clientCount - 1 == 0 then
    ({ p with clientCount := p.clientCount - 1, storageOnline := false, loggedIn := false }, true)
  else
    ({ p with clientCount := p.clientCount - 1 }, false)

/-- One step of the shared-session protocol: an acquire (with its login
outcome) or a release. -/
inductive SessionOp where
  | acquire (loginOk : Bool)
  | release
deriving DecidableEq, Repr

def applySessionOp (p : OceanstorSanPlugin) : SessionOp → OceanstorSanPlugin
  | .acquire loginOk => (mutexGetClient loginOk p).1
  | .release => (mutexReleaseClient p).1

def runSession (p : OceanstorSanPlugin) : List SessionOp → OceanstorSanPlugin
  | [] => p
  | op :: ops => runSession (applySessionOp p op) ops

/-- A sequence is well formed from state `p` when every release finds a
positive holder count, i.e. each release matches an earlier acquire (the Go
call sites only release a client they previously acquired). -/
def sessionWellFormed (p : OceanstorSanPlugin) : List SessionOp → Bool
  | [] => true
  | .acquire lo :: ops => sessionWellFormed (applySessionOp p (.acquire lo)) ops
  | .release :: ops =>
      decide (0 < p.clientCount) && sessionWellFormed (applySessionOp p .release) ops

def acquireOk : SessionOp → Bool
  | .acquire lo => lo
  | .release => true

def allAcquiresSucceed (ops : List SessionOp) : Bool := ops.all acquireOk

def isAcquire : SessionOp → Bool
  | .acquire _ => true
  | .release => false

def acquireCount (ops : List SessionOp) : Nat := ops.countP (fun op => isAcquire op)

def releaseCount (ops : List SessionOp) : Nat := ops.countP (fun op => !isAcquire op)

/-- Session invariant: the holder count never goes negative, and the online
flag and the array-side session both track `clientCount > 0`. -/
def sessionGood (p : OceanstorSanPlugin) : Prop :=
  0 ≤ p.clientCount ∧
    p.storageOnline = decide (0 < p.clientCount) ∧
    p.loggedIn = decide (0 < p.clientCount)

/-! ## HyperMetro-aware dispatch (`handler`, `metroHandler`, `commonHandler`) -/

/-- Errors produced by the embedded oceanstor-san operations.  Each
constructor names one `errors.New` / `fmt.Errorf` / `utils.Errorf` site of
the source; `clientErr` stands for an error value coming back from an array
client call and `attacherErr` for a non-nil error slot in a strategy
result. -/
inductive SanError where
  | bothStorageNotOnline
  | pairMissing (lunID : String)
  | noNameInLun
  | emptyLun (lunName : String)
  | storageConnectFailed (lunName : String) (inner : SanError)
  | attachResultMalformed (lunName : String)
  | attachResultNotMap (lunName : String)
  | detachResultMalformed (lunName : String)
  | attacherErr (msg : String)
  | clientErr (msg : String)
deriving DecidableEq, Repr

/-- The entries of a LUN descriptor (`map[string]interface{}` returned by
`GetLunByName`) that the dispatch code reads.  Each field is `some s` when
the corresponding key is present with a string value, `none` when the key is
absent or its value is not a string (the `.(string)` type assertion fails). -/
structure LunInfo where
  id : Option String
  name : Option String
  hasRssObject : Option String
deriving DecidableEq, Repr

/-- A HyperMetro pair object; `runningStatus` is `some s` when
`pair["RUNNINGSTATUS"]` is the string `s`, `none` when the key is absent or
not a string (any such value compares unequal to the status constants). -/
structure HyperMetroPair where
  runningStatus : Option String
deriving DecidableEq, Repr

/-- Model of one `reflect.Value` in the slice returned by
`utils.ReflectCall`: a `map[string]interface{}`, a non-nil `error`, a nil
interface, or any other value. -/
inductive RVal where
  | mapVal (m : GoMap)
  | errVal (e : String)
  | nilVal
  | otherVal
deriving DecidableEq, Repr

/-- Which plugin client/attacher an operation runs against. -/
inductive Target where
  | localArray
  | remoteArray
deriving DecidableEq, Repr

/-- Observable side effects of the dispatch path: warnings logged and
attacher invocations performed.  `fetchPair` records the
`GetHyperMetroPairByLocalObjID` call. -/
inductive Event where
  | fetchPair (lunID : String)
  | warnPairStatus (lunID : String)
  | warnLocalOnly (lunName : String)
  | warnRemoteOnly (lunName : String)
  | warnDetachAbsent (lunName : String)
  | invokeMetroAttacher (method lunName : String)
  | invokeCommonAttacher (target : Target) (method lunName : String)
deriving DecidableEq, Repr

/-- Result of an embedded Go function: a value, an error return, or a runtime
panic (a failed unchecked type assertion). -/
inductive Outcome (α : Type) where
  | ok (val : α)
  | fail (e : SanError)
  | panicked
deriving DecidableEq, Repr

/-- External collaborators of the dispatch path, abstracted as pure oracles:
the array clients (`MakeLunName`, `GetLunByName` on the local and the remote
client, `GetHyperMetroPairByLocalObjID`), the Go `json` package
(`parseRss` models `json.Unmarshal` into `map[string]string`), and
`utils.ReflectCall` on the metro attacher and on a common attacher
(`metroCall`/`commonCall`, taking the method name, the LUN name and the
parameter bag). -/
structure ArrayEnv where
  makeLunName : String → String
  getLunLocal : String → Except SanError (Option LunInfo)
  getLunRemote : String → Except SanError (Option LunInfo)
  parseRss : String → Option (List (String × String))
  getPair : String → Except SanError (Option HyperMetroPair)
  metroCall : String → String → GoMap → List RVal
  commonCall : Target → String → String → GoMap → List RVal

def hyperMetroPairRunningStatusNormal : String := "1"

def hyperMetroPairRunningStatusPause : String := "41"

/-- Expected length of a strategy result slice (`reflectResultLength`). -/
def reflectResultLength : Nat := 2

/-- Embedding of `OceanstorSanPlugin.isHyperMetro` (oceanstor-san.go:167):
the LUN participates in HyperMetro iff `lun["HASRSSOBJECT"]` is a string
that parses as JSON into a map whose `"HyperMetro"` entry is `"TRUE"`; a
missing/non-string field or a parse failure yields `false`. -/
def isHyperMetro (env : ArrayEnv) (lun : LunInfo) : Bool :=
  match lun.hasRssObject with
  | none => false
  | some rssStr =>
    match env.parseRss rssStr with
    | none => false
    | some rss =>
      match rss.lookup "HyperMetro" with
      | some v => v == "TRUE"
      | none => false

/-- Embedding of `OceanstorSanPlugin.commonHandler` (oceanstor-san.go:219):
build an attacher for the given plugin and reflect-call the requested method
on it; a LUN without a string `NAME` is an error (not a panic — this site
checks the `ok` flag). -/
def commonHandler (env : ArrayEnv) (target : Target) (lun : LunInfo)
    (parameters : GoMap) (method : String) : Outcome (List RVal) × List Event :=
  match lun.name with
  | none => (.fail .noNameInLun, [])
  | some lunName =>
    (.ok (env.commonCall target method lunName parameters),
     [.invokeCommonAttacher target method lunName])

/-- Embedding of `OceanstorSanPlugin.metroHandler` (oceanstor-san.go:186):
read `lun["ID"].(string)` (unchecked — panics when absent), fetch the
HyperMetro pair, fail when it does not exist, warn when its running status
is outside the accepted set ({normal, pause} for ControllerDetach and
NodeUnstage, {normal} otherwise), then reflect-call the metro attacher with
`lun["NAME"].(string)` (also unchecked). -/
def metroHandler (env : ArrayEnv) (lun : LunInfo) (parameters : GoMap)
    (method : String) : Outcome (List RVal) × List Event :=
  match lun.id with
  | none => (.panicked, [])
  | some localLunID =>
    match env.getPair localLunID with
    | .error e => (.fail e, [.fetchPair localLunID])
    | .ok none => (.fail (.pairMissing localLunID), [.fetchPair localLunID])
    | .ok (some pair) =>
      let warns : List Event :=
        if method == "ControllerDetach" || method == "NodeUnstage" then
          if pair.runningStatus != some hyperMetroPairRunningStatusNormal &&
              pair.runningStatus != some hyperMetroPairRunningStatusPause then
            [.warnPairStatus localLunID]
          else []
        else
          if pair.runningStatus != some hyperMetroPairRunningStatusNormal then
            [.warnPairStatus localLunID]
          else []
      match lun.name with
      | none => (.panicked, .fetchPair localLunID :: warns)
      | some lunName =>
        (.ok (env.metroCall method lunName parameters),
         .fetchPair localLunID :: warns ++ [.invokeMetroAttacher method lunName])

/-- Embedding of `OceanstorSanPlugin.handler` (oceanstor-san.go:233).  A
non-metro LUN goes to the local common handler.  A metro LUN goes to the
metro handler when both sides are online, to the local (resp. remote) common
handler with a degraded-pair warning when only that side is online (the
warning formats `req.lun["NAME"].(string)`, an unchecked assertion), and
when neither side is online the function falls through returning the zero
values `(nil, nil)` — modelled as `.ok []` with no events. -/
def handler (env : ArrayEnv) (p : OceanstorSanPlugin) (lun : LunInfo)
    (parameters : GoMap) (method : String) : Outcome (List RVal) × List Event :=
  if !(isHyperMetro env lun) then
    commonHandler env .localArray lun parameters method
  else if p.storageOnline && p.metroConfigured && p.metroOnline then
    metroHandler env lun parameters method
  else if p.storageOnline then
    match lun.name with
    | none => (.panicked, [])
    | some nm =>
      ((commonHandler env .localArray lun parameters method).1,
       .warnLocalOnly nm :: (commonHandler env .localArray lun parameters method).2)
  else if p.metroConfigured && p.metroOnline then
    match lun.name with
    | none => (.panicked, [])
    | some nm =>
      ((commonHandler env .remoteArray lun parameters method).1,
       .warnRemoteOnly nm :: (commonHandler env .remoteArray lun parameters method).2)
  else
    (.ok [], [])

/-- Embedding of `OceanstorSanPlugin.getLunInfo` (oceanstor-san.go:434):
query the local client when the local side is online, otherwise the remote
client when it is configured and online, otherwise fail with the explicit
error `"both the local and remote storage are not online"`
(`SanError.bothStorageNotOnline`). -/
def getLunInfo (env : ArrayEnv) (p : OceanstorSanPlugin) (lunName : String) :
    Except SanError (Option LunInfo) :=
  if p.storageOnline then env.getLunLocal lunName
  else if p.metroConfigured && p.metroOnline then env.getLunRemote lunName
  else .error .bothStorageNotOnline

/-- Result validation performed by `AttachVolume` (oceanstor-san.go:285-298):
a result slice whose length is not `reflectResultLength` is the generic
attach error; a non-nil second slot that is an error is returned as the
error; a non-nil second slot that is not an error makes `result.(error)`
panic; otherwise the first slot must be a `map[string]interface{}`. -/
def validateAttachResult (lunName : String) (out : List RVal) : Outcome GoMap :=
  match out with
  | [v0, v1] =>
    match v1 with
    | .nilVal =>
      match v0 with
      | .mapVal m => .ok m
      | _ => .fail (.attachResultNotMap lunName)
    | .errVal e => .fail (.attacherErr e)
    | _ => .panicked
  | _ => .fail (.attachResultMalformed lunName)

/-- Result validation performed by `DetachVolume` (oceanstor-san.go:328-336):
wrong length is the generic detach error; a non-nil error slot is returned;
a nil error slot is success (the first slot is not inspected). -/
def validateDetachResult (lunName : String) (out : List RVal) : Outcome Unit :=
  match out with
  | [_, v1] =>
    match v1 with
    | .nilVal => .ok ()
    | .errVal e => .fail (.attacherErr e)
    | _ => .panicked
  | _ => .fail (.detachResultMalformed lunName)

/-- Embedding of `OceanstorSanPlugin.AttachVolume` (oceanstor-san.go:257):
resolve the LUN name, fetch the LUN (raw error propagated), fail on an
absent LUN (`Get empty lun info`), dispatch through `handler` (errors
wrapped as `Storage connect for volume ... error`), then validate the
strategy result. -/
def AttachVolume (env : ArrayEnv) (p : OceanstorSanPlugin) (name : String)
    (parameters : GoMap) : Outcome GoMap × List Event :=
  match getLunInfo env p (env.makeLunName name) with
  | .error e => (.fail e, [])
  | .ok none => (.fail (.emptyLun (env.makeLunName name)), [])
  | .ok (some lun) =>
    match handler env p lun parameters "ControllerAttach" with
    | (.panicked, ev) => (.panicked, ev)
    | (.fail e, ev) => (.fail (.storageConnectFailed (env.makeLunName name) e), ev)
    | (.ok outv, ev) => (validateAttachResult (env.makeLunName name) outv, ev)

/-- Embedding of `OceanstorSanPlugin.DetachVolume` (oceanstor-san.go:301):
like `AttachVolume`, but an absent LUN is only a warning and a success
(`LUN ... to detach does not exist` is logged), handler errors are returned
unwrapped, and the result validation ignores the first slot. -/
def DetachVolume (env : ArrayEnv) (p : OceanstorSanPlugin) (name : String)
    (parameters : GoMap) : Outcome Unit × List Event :=
  match getLunInfo env p (env.makeLunName name) with
  | .error e => (.fail e, [])
  | .ok none => (.ok (), [.warnDetachAbsent (env.makeLunName name)])
  | .ok (some lun) =>
    match handler env p lun parameters "ControllerDetach" with
    | (.panicked, ev) => (.panicked, ev)
    | (.fail e, ev) => (.fail e, ev)
    | (.ok outv, ev) => (validateDetachResult (env.makeLunName name) outv, ev)

/-! ## Capability reporting (`UpdateBackendCapabilities`) -/

/-- Embedding of `OceanstorSanPlugin.updateHyperMetroCapability`
(oceanstor-san.go:463): when the array itself reports `SupportMetro` (the
key exists and is not the boolean `false`), replace it with
`metroRemotePlugin != nil && p.storageOnline && metroRemotePlugin.storageOnline`. -/
def updateHyperMetroCapability (p : OceanstorSanPlugin) (capabilities : GoMap) : GoMap :=
  match assocLookup capabilities "SupportMetro" with
  | none => capabilities
  | some v =>
    if v == .bool false then capabilities
    else
      assocSet capabilities "SupportMetro"
        (.bool (p.metroConfigured && p.storageOnline && p.metroOnline))

/-- Embedding of `OceanstorSanPlugin.updateReplicaCapability`
(oceanstor-san.go:472): when the array reports `SupportReplication`, replace
it with `replicaRemotePlugin != nil`. -/
def updateReplicaCapability (p : OceanstorSanPlugin) (capabilities : GoMap) : GoMap :=
  match assocLookup capabilities "SupportReplication" with
  | none => capabilities
  | some v =>
    if v == .bool false then capabilities
    else assocSet capabilities "SupportReplication" (.bool p.replicaConfigured)

/-- Embedding of `OceanstorSanPlugin.UpdateBackendCapabilities`
(oceanstor-san.go:450).  `base` is the result of the embedded
`OceanstorPlugin.UpdateBackendCapabilities` call (an external input here: the
base method queries the array).  On error the plugin is marked offline; on
success it is marked online and the metro/replica capabilities are rewritten
from the live topology flags. -/
def UpdateBackendCapabilities (base : Except String (GoMap × GoMap))
    (p : OceanstorSanPlugin) :
    Except String (GoMap × GoMap) × OceanstorSanPlugin :=
  match base with
  | .error e => (.error e, { p with storageOnline := false })
  | .ok (capabilities, specifications) =>
    let p1 := { p with storageOnline := true }
    (.ok (updateReplicaCapability p1 (updateHyperMetroCapability p1 capabilities),
          specifications),
     p1)

/-! ## Configuration validation (`Validate`) -/

/-- The entries of the `parameters` sub-map that the validation code reads.
Fields are `none` when the key is absent or has the wrong dynamic type. -/
structure BackendParameters where
  protocol : Option String
  portals : Option (List GoVal)
  parentname : Option String
deriving DecidableEq, Repr

/-- The entries of the backend configuration map read by validation. -/
structure BackendConfig where
  storage : Option String
  parameters : Option BackendParameters
deriving DecidableEq, Repr

/-- Validation errors; each constructor names one error site of
`verifyOceanstorSanParam` / `verifyOceanstorDTreeParam` / `Validate`. -/
inductive ValidateError where
  | parametersMissing
  | badProtocol
  | portalsMissing
  | badPortals (msg : String)
  | storageNotDTree
  | parentnameMissing
  | badDTreeProtocol
  | dtreePortalsMissing
  | clientConfigErr (msg : String)
  | newClientErr (msg : String)
  | loginErr (msg : String)
deriving DecidableEq, Repr

/-- External collaborators of `Validate`: `proto.VerifyIscsiPortals`, the
`getNewClientConfig` helpers, construction of the throwaway client and its
`ValidateLogin` probe. -/
structure ValidateEnv where
  verifyIscsiPortals : List GoVal → Except ValidateError Unit
  getNewClientConfig : Except ValidateError Unit
  validateLogin : Except ValidateError Unit
  dtreeGetNewClientConfig : Except ValidateError Unit
  dtreeNewClient : Except ValidateError Unit
  dtreeValidateLogin : Except ValidateError Unit

/-- Side effects of a `Validate` call on the throwaway client. -/
inductive ValidateEvent where
  | newThrowawayClient
  | probeLogin
  | throwawayLogout
deriving DecidableEq, Repr

/-- Embedding of `OceanstorSanPlugin.verifyOceanstorSanParam`
(oceanstor-san.go:504): `parameters` must exist, `protocol` must be one of
iscsi/fc/roce/fc-nvme, and for iscsi/roce a portal list must exist and pass
`proto.VerifyIscsiPortals`. -/
def verifyOceanstorSanParam (env : ValidateEnv) (config : BackendConfig) :
    Except ValidateError Unit :=
  match config.parameters with
  | none => .error .parametersMissing
  | some params =>
    match params.protocol with
    | none => .error .badProtocol
    | some protocol =>
      if protocol == "iscsi" || protocol == "fc" || protocol == "roce" ||
          protocol == "fc-nvme" then
        if protocol == "iscsi" || protocol == "roce" then
          match params.portals with
          | none => .error .portalsMissing
          | some ps =>
            match env.verifyIscsiPortals ps with
            | .error e => .error e
            | .ok _ => .ok ()
        else .ok ()
      else .error .badProtocol

/-- Embedding of `OceanstorSanPlugin.Validate` (oceanstor-san.go:480):
verify the parameters, build a client config, construct a throwaway client
(`client.NewClient` for the SAN plugin cannot fail), probe `ValidateLogin`
— returning its error without a logout — and on success `Logout`
immediately.  The plugin state is threaded unchanged: the source never
reads or writes the tracked session of the receiver (`cli`, `clientCount`,
`storageOnline`). -/
def sanValidate (env : ValidateEnv) (p : OceanstorSanPlugin)
    (config : BackendConfig) :
    Except ValidateError Unit × OceanstorSanPlugin × List ValidateEvent :=
  match verifyOceanstorSanParam env config with
  | .error e => (.error e, p, [])
  | .ok _ =>
    match env.getNewClientConfig with
    | .error e => (.error e, p, [])
    | .ok _ =>
      match env.validateLogin with
      | .error e => (.error e, p, [.newThrowawayClient, .probeLogin])
      | .ok _ => (.ok (), p, [.newThrowawayClient, .probeLogin, .throwawayLogout])

/-- Embedding of the `DTreeStorage` backend-type constant declared in the
OceanstorDTree plugin file (`const DTreeStorage = "oceanstor-dtree"`). -/
def DTreeStorage : String := "oceanstor-dtree"

/-- Embedding of `verifyOceanstorDTreeParam` (OceanstorDTree plugin file):
`storage` must equal `DTreeStorage`, `parameters` must exist, `parentname`
must be a non-empty string, `protocol` must be `nfs`, and the portal list
must exist with exactly one element (`portals` here is `none` when the key
is absent or not a `[]interface{}` — the source checks presence and shape
with the same error). -/
def verifyOceanstorDTreeParam (config : BackendConfig) : Except ValidateError Unit :=
  match config.storage with
  | none => .error .storageNotDTree
  | some storage =>
    if storage == DTreeStorage then
      match config.parameters with
      | none => .error .parametersMissing
      | some params =>
        match params.parentname with
        | none => .error .parentnameMissing
        | some pn =>
          if pn == "" then .error .parentnameMissing
          else
            match params.protocol with
            | none => .error .badDTreeProtocol
            | some protocol =>
              if protocol == "nfs" then
                match params.portals with
                | none => .error .dtreePortalsMissing
                | some ps =>
                  if ps.length == 1 then .ok ()
                  else .error .dtreePortalsMissing
              else .error .badDTreeProtocol
    else .error .storageNotDTree

/-- Embedding of `OceanstorDTreePlugin.Validate` (OceanstorDTree plugin
file): build the client config, verify the parameters, construct the
throwaway client (fallible for the dtree client), probe `ValidateLogin`,
and on success `Logout`.  As for the SAN plugin, the receiver state (of
arbitrary type `σ`, since only non-mutation matters) is threaded
unchanged. -/
def dtreeValidate {σ : Type} (env : ValidateEnv) (p : σ) (config : BackendConfig) :
    Except ValidateError Unit × σ × List ValidateEvent :=
  match env.dtreeGetNewClientConfig with
  | .error e => (.error e, p, [])
  | .ok _ =>
    match verifyOceanstorDTreeParam config with
    | .error e => (.error e, p, [])
    | .ok _ =>
      match env.dtreeNewClient with
      | .error e => (.error e, p, [])
      | .ok _ =>
        match env.dtreeValidateLogin with
        | .error e => (.error e, p, [.newThrowawayClient, .probeLogin])
        | .ok _ => (.ok (), p, [.newThrowawayClient, .probeLogin, .throwawayLogout])

/-! ## CSI controller service (`csi/driver/controller.go`) -/

/-- gRPC status codes used by the embedded controller handlers. -/
inductive CsiCode where
  | internal
  | invalidArgument
deriving DecidableEq, Repr

/-- Result of a controller RPC: the success response or `status.Error`. -/
inductive CsiResult where
  | success
  | failure (code : CsiCode) (msg : String)
deriving DecidableEq, Repr

/-- A resolved backend as the controller sees it: its storage family and its
plugin operations (abstracted — the plugin behaviour is oracle-supplied). -/
structure CsiBackend where
  isDTree : Bool
  deleteVolume : String → Except String Unit
  deleteDTreeVolume : String → Except String Unit
  detachVolume : String → GoMap → Except String Unit
  deleteSnapshot : String → String → Except String Unit

/-- External collaborators of the controller handlers:
`utils.SplitVolumeId`, `utils.SplitSnapshotId`, `backend.GetBackendWithFresh`
and `json.Unmarshal` of the node-info blob. -/
structure DriverEnv where
  splitVolumeId : String → String × String
  splitSnapshotId : String → String × String × String
  getBackend : String → Option CsiBackend
  parseNodeInfo : String → Option GoMap

/-- Embedding of `Driver.DeleteVolume` (controller.go:70): a missing backend
is only a warning and a success response; otherwise the (dtree or plain)
plugin delete runs and an error becomes `codes.Internal`. -/
def DriverDeleteVolume (denv : DriverEnv) (volumeId : String) : CsiResult :=
  match denv.getBackend (denv.splitVolumeId volumeId).1 with
  | none => .success
  | some b =>
    match
      (if b.isDTree then b.deleteDTreeVolume (denv.splitVolumeId volumeId).2
       else b.deleteVolume (denv.splitVolumeId volumeId).2) with
    | .error e => .failure .internal e
    | .ok _ => .success

/-- Embedding of `Driver.ControllerUnpublishVolume` (controller.go:197): the
backend is resolved first and a missing backend returns success before the
node-info blob is even parsed; afterwards an unmarshal failure or a detach
failure is `codes.Internal`. -/
def DriverControllerUnpublishVolume (denv : DriverEnv) (volumeId nodeInfo : String) :
    CsiResult :=
  match denv.getBackend (denv.splitVolumeId volumeId).1 with
  | none => .success
  | some b =>
    match denv.parseNodeInfo nodeInfo with
    | none => .failure .internal "unmarshal node info error"
    | some params =>
      match b.detachVolume (denv.splitVolumeId volumeId).2 params with
      | .error e => .failure .internal e
      | .ok _ => .success

/-- Embedding of `Driver.DeleteSnapshot` (controller.go:329): an empty
snapshot id is `codes.InvalidArgument`; a missing backend is a warning and a
success; otherwise the plugin delete runs and an error is
`codes.Internal`. -/
def DriverDeleteSnapshot (denv : DriverEnv) (snapshotId : String) : CsiResult :=
  if snapshotId == "" then .failure .invalidArgument "Snapshot ID missing in request"
  else
    match denv.getBackend (denv.splitSnapshotId snapshotId).1 with
    | none => .success
    | some b =>
      match b.deleteSnapshot (denv.splitSnapshotId snapshotId).2.1
          (denv.splitSnapshotId snapshotId).2.2 with
      | .error e => .failure .internal e
      | .ok _ => .success

/-! ## FusionStorage SAN plugin -/

/-- State of one `FusionStorageSanPlugin` (fusionstorage-san.go struct
fields relevant to capability reporting). -/
structure FusionStorageSanPlugin where
  protocol : String
  storageOnline : Bool
  clientCount : Int
deriving DecidableEq, Repr

/-- Embedding of `FusionStorageSanPlugin.UpdateBackendCapabilities`
(fusionstorage-san.go:232): a literal capability map, a nil specification
map and a nil error, with no array call and no read of the plugin state. -/
def fusionUpdateBackendCapabilities (p : FusionStorageSanPlugin) :
    GoMap × Option GoMap × Option String :=
  ([("SupportThin", .bool true), ("SupportThick", .bool false),
    ("SupportQoS", .bool true), ("SupportClone", .bool true),
    ("SupportLabel", .bool false)],
   none, none)

/-! ## Concrete test data for the witness theorems -/

/-- A freshly initialised plugin: no holders, offline, logged out, metro
remote bonded and online. -/
def testPlugin : OceanstorSanPlugin :=
  { storageOnline := false, clientCount := 0, loggedIn := false,
    metroConfigured := true, metroOnline := true, replicaConfigured := false }

/-- A metro-active LUN descriptor. -/
def testLun : LunInfo :=
  { id := some "11", name := some "pvc-1", hasRssObject := some "rss" }

/-- A concrete environment: the relationship blob `"rss"` parses to an
active HyperMetro entry, the pair is present and normal, the LUN exists on
both sides, and the attacher calls return a well-formed success pair. -/
def testEnv : ArrayEnv :=
  { makeLunName := fun n => n
    getLunLocal := fun _ => .ok (some testLun)
    getLunRemote := fun _ => .ok (some testLun)
    parseRss := fun s => if s == "rss" then some [("HyperMetro", "TRUE")] else none
    getPair := fun _ => .ok (some { runningStatus := some "1" })
    metroCall := fun _ _ _ => [.mapVal [("tgtLunWWN", .str "w")], .nilVal]
    commonCall := fun _ _ _ _ => [.mapVal [("tgtLunWWN", .str "w")], .nilVal] }

/-- A validation environment in which every probe succeeds. -/
def testValidateEnv : ValidateEnv :=
  { verifyIscsiPortals := fun _ => .ok ()
    getNewClientConfig := .ok ()
    validateLogin := .ok ()
    dtreeGetNewClientConfig := .ok ()
    dtreeNewClient := .ok ()
    dtreeValidateLogin := .ok () }

/-- A driver environment with no registered backends. -/
def testDriverEnv : DriverEnv :=
  { splitVolumeId := fun v => (v, v)
    splitSnapshotId := fun s => (s, s, s)
    getBackend := fun _ => none
    parseNodeInfo := fun _ => some [] }

/-- A valid iscsi configuration for the SAN validation path. -/
def testConfig : BackendConfig :=
  { storage := some DTreeStorage
    parameters := some
      { protocol := some "iscsi", portals := some [.str "1.2.3.4"],
        parentname := some "p" } }

/-- A valid nfs configuration for the dtree validation path. -/
def testDTreeConfig : BackendConfig :=
  { storage := some DTreeStorage
    parameters := some
      { protocol := some "nfs", portals := some [.str "1.2.3.4"],
        parentname := some "p" } }

/-! ## Helper lemmas -/

theorem assocLookup_assocSet_self (m : GoMap) (k : String) (v : GoVal) :
    assocLookup (assocSet m k v) k = some v := by
  induction m with
  | nil => simp [assocLookup, assocSet]
  | cons hd tl ih =>
    obtain ⟨k2, v2⟩ := hd
    by_cases h : k2 = k <;> simp [assocLookup, assocSet, h, ih]

theorem assocLookup_assocSet_ne (m : GoMap) (k k2 : String) (v : GoVal) (h : k ≠ k2) :
    assocLookup (assocSet m k v) k2 = assocLookup m k2 := by
  induction m with
  | nil => simp [assocLookup, assocSet, h]
  | cons hd tl ih =>
    obtain ⟨k3, v3⟩ := hd
    by_cases h3 : k3 = k
    · subst h3
      simp [assocLookup, assocSet, h]
    · by_cases h4 : k3 = k2 <;>
        simp [assocLookup, assocSet, h3, h4, ih, Ne.symm h]

theorem mutexGetClient_ok_spec (p : OceanstorSanPlugin) (hg : sessionGood p) :
    sessionGood (mutexGetClient true p).1 ∧
      (mutexGetClient true p).1.clientCount = p.clientCount + 1 := by
  obtain ⟨h0, hon, hlog⟩ := hg
  by_cases hz : p.clientCount = 0
  · have hpos1 : 0 < p.clientCount + 1 := by omega
    simp [mutexGetClient, hz, sessionGood, hpos1]
  · have hpos : 0 < p.clientCount := by omega
    have honT : p.storageOnline = true := by rw [hon]; simp [hpos]
    have hlogT : p.loggedIn = true := by rw [hlog]; simp [hpos]
    have hpos1 : 0 < p.clientCount + 1 := by omega
    simp [mutexGetClient, hz, honT, sessionGood, hlogT, hpos1]
    omega

theorem mutexReleaseClient_spec (p : OceanstorSanPlugin) (hg : sessionGood p)
    (hpos : 0 < p.clientCount) :
    sessionGood (mutexReleaseClient p).1 ∧
      (mutexReleaseClient p).1.clientCount = p.clientCount - 1 := by
  obtain ⟨h0, hon, hlog⟩ := hg
  by_cases hz : p.clientCount - 1 = 0
  · simp [mutexReleaseClient, hz, sessionGood]
  · have hgt : 0 < p.clientCount - 1 := by omega
    have honT : p.storageOnline = true := by rw [hon]; simp [hpos]
    have hlogT : p.loggedIn = true := by rw [hlog]; simp [hpos]
    simp [mutexReleaseClient, hz, sessionGood, honT, hlogT, hgt]
    omega

theorem runSession_invariant (ops : List SessionOp) (p : OceanstorSanPlugin)
    (hg : sessionGood p) (hall : allAcquiresSucceed ops = true)
    (hwf : sessionWellFormed p ops = true) :
    sessionGood (runSession p ops) ∧
      (runSession p ops).clientCount =
        p.clientCount + (acquireCount ops : Int) - (releaseCount ops : Int) := by
  induction ops generalizing p with
  | nil => simpa [runSession, acquireCount, releaseCount] using hg
  | cons op ops ih =>
    cases op with
    | acquire lo =>
      have hlo : lo = true := by
        simp [allAcquiresSucceed, acquireOk] at hall
        exact hall.1
      subst hlo
      have hall2 : allAcquiresSucceed ops = true := by
        simp [allAcquiresSucceed] at hall ⊢
        exact hall.2
      have hwf2 : sessionWellFormed (applySessionOp p (.acquire true)) ops = true := by
        simpa [sessionWellFormed] using hwf
      obtain ⟨hgood1, hcount1⟩ := mutexGetClient_ok_spec p hg
      have step := ih (applySessionOp p (.acquire true)) hgood1 hall2 hwf2
      refine ⟨step.1, ?_⟩
      rw [show runSession p (SessionOp.acquire true :: ops) =
            runSession (applySessionOp p (.acquire true)) ops from rfl]
      rw [step.2]
      simp only [applySessionOp] at *
      rw [hcount1]
      simp [acquireCount, releaseCount, List.countP_cons, isAcquire]
      omega
    | release =>
      have hall2 : allAcquiresSucceed ops = true := by
        simpa [allAcquiresSucceed, acquireOk] using hall
      have hwf' := hwf
      simp only [sessionWellFormed, Bool.and_eq_true, decide_eq_true_eq] at hwf'
      obtain ⟨hpos, hwf2⟩ := hwf'
      obtain ⟨hgood1, hcount1⟩ := mutexReleaseClient_spec p hg hpos
      have step := ih (applySessionOp p .release) hgood1 hall2 hwf2
      refine ⟨step.1, ?_⟩
      rw [show runSession p (SessionOp.release :: ops) =
            runSession (applySessionOp p .release) ops from rfl]
      rw [step.2]
      simp only [applySessionOp] at *
      rw [hcount1]
      simp [acquireCount, releaseCount, List.countP_cons, isAcquire]
      omega

/-! ## Claim theorems -/

/-- C2: for every interleaved sequence of acquires and releases on one
plugin, starting from the fresh state (count 0, offline, logged out), in
which every release matches an earlier acquire, every login succeeds, and
the number of acquires equals the number of releases, the final state has
holder count zero, the session logged out and the online flag false; and
`mutexReleaseClient` invokes `Logout` exactly when the decremented holder
count reaches zero (hence never while it is still positive). -/
theorem balanced_session_ends_logged_out (ops : List SessionOp)
    (p : OceanstorSanPlugin)
    (hcount : p.clientCount = 0) (hon : p.storageOnline = false)
    (hlog : p.loggedIn = false)
    (hall : allAcquiresSucceed ops = true)
    (hwf : sessionWellFormed p ops = true)
    (hbal : acquireCount ops = releaseCount ops) :
    (runSession p ops).clientCount = 0 ∧
      (runSession p ops).loggedIn = false ∧
      (runSession p ops).storageOnline = false ∧
      ∀ q : OceanstorSanPlugin,
        (mutexReleaseClient q).2 = true ↔ (mutexReleaseClient q).1.clientCount = 0 := by
  have hg : sessionGood p := by
    refine ⟨by omega, ?_, ?_⟩ <;> rw [hcount] <;> simp [hon, hlog]
  obtain ⟨hgood, hcnt⟩ := runSession_invariant ops p hg hall hwf
  have hzero : (runSession p ops).clientCount = 0 := by
    rw [hcnt, hcount, hbal]; ring
  obtain ⟨_, hon2, hlog2⟩ := hgood
  refine ⟨hzero, ?_, ?_, ?_⟩
  · rw [hlog2, hzero]; simp
  · rw [hon2, hzero]; simp
  · intro q
    by_cases hq : q.clientCount - 1 = 0 <;>
      simp [mutexReleaseClient, hq]

/-- Concrete run for C2: two acquires followed by two releases from the
fresh state end with count zero, logged out and offline. -/
theorem balanced_session_ends_logged_out_witness :
    (runSession testPlugin
        [SessionOp.acquire true, SessionOp.acquire true,
         SessionOp.release, SessionOp.release]).clientCount = 0 ∧
      (runSession testPlugin
        [SessionOp.acquire true, SessionOp.acquire true,
         SessionOp.release, SessionOp.release]).loggedIn = false ∧
      (runSession testPlugin
        [SessionOp.acquire true, SessionOp.acquire true,
         SessionOp.release, SessionOp.release]).storageOnline = false := by
  have h := balanced_session_ends_logged_out
    [SessionOp.acquire true, SessionOp.acquire true,
     SessionOp.release, SessionOp.release]
    testPlugin rfl rfl rfl (by decide) (by decide) (by decide)
  exact ⟨h.1, h.2.1, h.2.2.1⟩

/-- C1: for a HyperMetro-active LUN, `handler` selects the metro handler
when both sides are online, the local common handler with a degraded-pair
warning when only the local side is online, the common handler against the
remote plugin with a warning when only the remote side is online; and when
neither side is online, `AttachVolume`/`DetachVolume` fail with the explicit
`both the local and remote storage are not online` error from `getLunInfo`
before any handler runs (the event trace is empty). -/
theorem hyperMetro_dispatch_table (env : ArrayEnv) (p : OceanstorSanPlugin)
    (lun : LunInfo) (parameters : GoMap) (method name nm : String)
    (hmetro : isHyperMetro env lun = true) (hname : lun.name = some nm) :
    (p.storageOnline = true → p.metroConfigured = true → p.metroOnline = true →
      handler env p lun parameters method = metroHandler env lun parameters method) ∧
    (p.storageOnline = true → (p.metroConfigured && p.metroOnline) = false →
      handler env p lun parameters method =
        ((commonHandler env .localArray lun parameters method).1,
         .warnLocalOnly nm :: (commonHandler env .localArray lun parameters method).2)) ∧
    (p.storageOnline = false → p.metroConfigured = true → p.metroOnline = true →
      handler env p lun parameters method =
        ((commonHandler env .remoteArray lun parameters method).1,
         .warnRemoteOnly nm :: (commonHandler env .remoteArray lun parameters method).2)) ∧
    (p.storageOnline = false → (p.metroConfigured && p.metroOnline) = false →
      AttachVolume env p name parameters = (.fail .bothStorageNotOnline, []) ∧
      DetachVolume env p name parameters = (.fail .bothStorageNotOnline, [])) := by
  refine ⟨?_, ?_, ?_, ?_⟩
  · intro h1 h2 h3
    simp [handler, hmetro, h1, h2, h3]
  · intro h1 h2
    cases hc : p.metroConfigured <;> cases ho : p.metroOnline <;>
      simp_all [handler, hmetro, hname, h1]
  · intro h1 h2 h3
    simp [handler, hmetro, h1, h2, h3, hname]
  · intro h1 h2
    have hlun : getLunInfo env p (env.makeLunName name) = .error .bothStorageNotOnline := by
      cases hc : p.metroConfigured <;> cases ho : p.metroOnline <;>
        simp_all [getLunInfo, h1]
    exact ⟨by simp [AttachVolume, hlun], by simp [DetachVolume, hlun]⟩

/-- Concrete instance for C1: with the test environment and both sides
online, the handler on the metro-active test LUN equals the metro handler. -/
theorem hyperMetro_dispatch_table_witness :
    handler testEnv { testPlugin with storageOnline := true } testLun []
        "ControllerAttach" =
      metroHandler testEnv testLun [] "ControllerAttach" :=
  (hyperMetro_dispatch_table testEnv { testPlugin with storageOnline := true }
    testLun [] "ControllerAttach" "v" "pvc-1" (by decide) (by decide)).1 rfl rfl rfl

/-- C4: a LUN whose `HASRSSOBJECT` entry is missing (or not a string — both
are `hasRssObject = none`) or whose blob fails to parse as JSON yields
`isHyperMetro = false`, and `handler` dispatches it to the local common
handler instead of failing. -/
theorem malformed_rss_fails_open (env : ArrayEnv) (p : OceanstorSanPlugin)
    (lun : LunInfo) (parameters : GoMap) (method : String)
    (hbad : lun.hasRssObject = none ∨
      ∃ s, lun.hasRssObject = some s ∧ env.parseRss s = none) :
    isHyperMetro env lun = false ∧
      handler env p lun parameters method =
        commonHandler env .localArray lun parameters method := by
  have hm : isHyperMetro env lun = false := by
    rcases hbad with h | ⟨s, hs, hp⟩
    · simp [isHyperMetro, h]
    · simp [isHyperMetro, hs, hp]
  exact ⟨hm, by simp [handler, hm]⟩

/-- Concrete instance for C4: an unparsable blob dispatches to the local
common handler. -/
theorem malformed_rss_fails_open_witness :
    isHyperMetro testEnv
        { id := some "11", name := some "pvc-1", hasRssObject := some "junk" } = false ∧
      handler testEnv testPlugin
          { id := some "11", name := some "pvc-1", hasRssObject := some "junk" }
          [] "ControllerAttach" =
        commonHandler testEnv .localArray
          { id := some "11", name := some "pvc-1", hasRssObject := some "junk" }
          [] "ControllerAttach" :=
  malformed_rss_fails_open testEnv testPlugin
    { id := some "11", name := some "pvc-1", hasRssObject := some "junk" }
    [] "ControllerAttach" (Or.inr ⟨"junk", rfl, by decide⟩)

/-- C9: when the LUN lookup on the consulted array reports no LUN,
`AttachVolume` returns the `Get empty lun info` error and never a success
(unlike `DetachVolume`, which succeeds there). -/
theorem attach_absent_lun_errors (env : ArrayEnv) (p : OceanstorSanPlugin)
    (name : String) (parameters : GoMap)
    (habs : getLunInfo env p (env.makeLunName name) = .ok none) :
    (AttachVolume env p name parameters).1 =
        .fail (.emptyLun (env.makeLunName name)) ∧
      ∀ m, (AttachVolume env p name parameters).1 ≠ .ok m := by
  have h : AttachVolume env p name parameters =
      (.fail (.emptyLun (env.makeLunName name)), []) := by
    simp [AttachVolume, habs]
  rw [h]
  exact ⟨rfl, by intro m hk; cases hk⟩

/-- Concrete instance for C9: an environment whose local lookup finds no
LUN makes `AttachVolume` fail with the empty-lun error. -/
theorem attach_absent_lun_errors_witness :
    (AttachVolume
        { testEnv with getLunLocal := fun _ => .ok none }
        { testPlugin with storageOnline := true } "v" []).1 =
      .fail (.emptyLun "v") :=
  (attach_absent_lun_errors
    { testEnv with getLunLocal := fun _ => .ok none }
    { testPlugin with storageOnline := true } "v" [] rfl).1

/-- C3: in the metro handler the HyperMetro pair is fetched first (first
event); a missing pair fails the operation with no attacher invocation;
with a pair present the operation still runs, warning exactly when the
running status is outside {normal, pause} for ControllerDetach/NodeUnstage
and outside {normal} for ControllerAttach. -/
theorem metro_pair_checked_first (env : ArrayEnv) (lun : LunInfo)
    (parameters : GoMap) (method lid nm : String)
    (hid : lun.id = some lid) (hname : lun.name = some nm) :
    (metroHandler env lun parameters method).2.head? = some (.fetchPair lid) ∧
      (env.getPair lid = .ok none →
        metroHandler env lun parameters method =
          (.fail (.pairMissing lid), [.fetchPair lid])) ∧
      ∀ pair : HyperMetroPair, env.getPair lid = .ok (some pair) →
        ((method = "ControllerDetach" ∨ method = "NodeUnstage") →
          (metroHandler env lun parameters method).1 =
              .ok (env.metroCall method nm parameters) ∧
            Event.invokeMetroAttacher method nm ∈
              (metroHandler env lun parameters method).2 ∧
            (Event.warnPairStatus lid ∈ (metroHandler env lun parameters method).2 ↔
              ¬(pair.runningStatus = some hyperMetroPairRunningStatusNormal ∨
                pair.runningStatus = some hyperMetroPairRunningStatusPause))) ∧
        (method = "ControllerAttach" →
          (metroHandler env lun parameters method).1 =
              .ok (env.metroCall method nm parameters) ∧
            Event.invokeMetroAttacher method nm ∈
              (metroHandler env lun parameters method).2 ∧
            (Event.warnPairStatus lid ∈ (metroHandler env lun parameters method).2 ↔
              pair.runningStatus ≠ some hyperMetroPairRunningStatusNormal)) := by
  refine ⟨?_, ?_, ?_⟩
  · rcases hp : env.getPair lid with e | op
    · simp [metroHandler, hid, hp]
    · rcases op with _ | pair <;> simp [metroHandler, hid, hp, hname]
  · intro hp
    simp [metroHandler, hid, hp]
  · intro pair hp
    constructor
    · intro hmeth
      rcases hmeth with hm | hm <;> subst hm <;>
        by_cases h1 : pair.runningStatus = some hyperMetroPairRunningStatusNormal <;>
        by_cases h2 : pair.runningStatus = some hyperMetroPairRunningStatusPause <;>
        simp [metroHandler, hid, hname, hp, h1, h2]
    · intro hmeth
      subst hmeth
      by_cases h1 : pair.runningStatus = some hyperMetroPairRunningStatusNormal <;>
        simp [metroHandler, hid, hname, hp, h1]

/-- Concrete instance for C3: the first event of the metro handler on the
test LUN is the pair fetch. -/
theorem metro_pair_checked_first_witness :
    (metroHandler testEnv testLun [] "ControllerAttach").2.head? =
      some (.fetchPair "11") :=
  (metro_pair_checked_first testEnv testLun [] "ControllerAttach" "11" "pvc-1"
    rfl rfl).1

/-- C5: teardown is idempotent at the public interface: `DetachVolume` on a
name whose LUN does not exist succeeds, and `DeleteVolume`,
`ControllerUnpublishVolume` and `DeleteSnapshot` against a backend that no
longer exists return success responses. -/
theorem teardown_idempotent (env : ArrayEnv) (denv : DriverEnv)
    (p : OceanstorSanPlugin) (name volumeId nodeInfo snapshotId : String)
    (parameters : GoMap)
    (hlun : getLunInfo env p (env.makeLunName name) = .ok none)
    (hb1 : denv.getBackend (denv.splitVolumeId volumeId).1 = none)
    (hb2 : denv.getBackend (denv.splitSnapshotId snapshotId).1 = none)
    (hsnap : ¬snapshotId = "") :
    (DetachVolume env p name parameters).1 = .ok () ∧
      DriverDeleteVolume denv volumeId = .success ∧
      DriverControllerUnpublishVolume denv volumeId nodeInfo = .success ∧
      DriverDeleteSnapshot denv snapshotId = .success := by
  refine ⟨?_, ?_, ?_, ?_⟩
  · simp [DetachVolume, hlun]
  · simp [DriverDeleteVolume, hb1]
  · simp [DriverControllerUnpublishVolume, hb1]
  · simp [DriverDeleteSnapshot, hsnap, hb2]

/-- Concrete instance for C5: with no registered backends and an absent
LUN, all four teardown operations succeed. -/
theorem teardown_idempotent_witness :
    (DetachVolume { testEnv with getLunLocal := fun _ => .ok none }
        { testPlugin with storageOnline := true } "v" []).1 = .ok () ∧
      DriverDeleteVolume testDriverEnv "b.v" = .success ∧
      DriverControllerUnpublishVolume testDriverEnv "b.v" "nodeinfo" = .success ∧
      DriverDeleteSnapshot testDriverEnv "b.p.s" = .success :=
  teardown_idempotent { testEnv with getLunLocal := fun _ => .ok none }
    testDriverEnv { testPlugin with storageOnline := true }
    "v" "b.v" "nodeinfo" "b.p.s" [] rfl rfl rfl (by decide)

/-- Lookup of `SupportMetro` is untouched by the replica-capability
rewrite, which only writes the `SupportReplication` key. -/
theorem updateReplicaCapability_lookup_supportMetro (p : OceanstorSanPlugin)
    (caps : GoMap) :
    assocLookup (updateReplicaCapability p caps) "SupportMetro" =
      assocLookup caps "SupportMetro" := by
  rcases h : assocLookup caps "SupportReplication" with _ | v
  · simp [updateReplicaCapability, h]
  · by_cases hv : v = .bool false
    · simp [updateReplicaCapability, h, hv]
    · simp [updateReplicaCapability, h, hv]
      exact assocLookup_assocSet_ne caps "SupportReplication" "SupportMetro" _ (by decide)

/-- C6: after a successful `UpdateBackendCapabilities` the plugin is online,
and the reported `SupportMetro` is the boolean `true` only when a metro
remote is bonded and both the (freshly set) local online flag and the remote
online flag are true; when the array itself reports metro support the
resulting entry equals exactly that conjunction, so toggling either flag
changes the next report. -/
theorem metro_capability_live (caps specs : GoMap) (p : OceanstorSanPlugin) :
    (UpdateBackendCapabilities (.ok (caps, specs)) p).2.storageOnline = true ∧
      ∀ m specs2,
        (UpdateBackendCapabilities (.ok (caps, specs)) p).1 = .ok (m, specs2) →
        (assocLookup m "SupportMetro" = some (.bool true) →
          p.metroConfigured = true ∧
            (UpdateBackendCapabilities (.ok (caps, specs)) p).2.storageOnline = true ∧
            p.metroOnline = true) ∧
        (∀ v, assocLookup caps "SupportMetro" = some v → v ≠ .bool false →
          assocLookup m "SupportMetro" =
            some (.bool (p.metroConfigured &&
              (UpdateBackendCapabilities (.ok (caps, specs)) p).2.storageOnline &&
              p.metroOnline))) := by
  refine ⟨rfl, ?_⟩
  intro m specs2 hm
  simp only [UpdateBackendCapabilities] at hm ⊢
  obtain ⟨hM, hS⟩ : updateReplicaCapability { p with storageOnline := true }
      (updateHyperMetroCapability { p with storageOnline := true } caps) = m ∧
      specs = specs2 := by
    simpa using hm
  have hkey : assocLookup m "SupportMetro" =
      assocLookup (updateHyperMetroCapability { p with storageOnline := true } caps)
        "SupportMetro" := by
    rw [← hM]
    exact updateReplicaCapability_lookup_supportMetro _ _
  constructor
  · intro hlook
    rw [hkey] at hlook
    rcases hc : assocLookup caps "SupportMetro" with _ | v
    · simp [updateHyperMetroCapability, hc] at hlook
    · by_cases hv : v = .bool false
      · simp [updateHyperMetroCapability, hc, hv] at hlook
      · simp [updateHyperMetroCapability, hc, hv,
          assocLookup_assocSet_self] at hlook
        simp_all
  · intro v hc hv
    rw [hkey]
    simp [updateHyperMetroCapability, hc, hv, assocLookup_assocSet_self]

/-- Concrete instance for C6: with a metro remote bonded and online and the
array reporting metro support, the reported flag is true and both online
conditions hold. -/
theorem metro_capability_live_witness :
    testPlugin.metroConfigured = true ∧
      (UpdateBackendCapabilities (.ok ([("SupportMetro", GoVal.bool true)], []))
        testPlugin).2.storageOnline = true ∧
      testPlugin.metroOnline = true :=
  ((metro_capability_live [("SupportMetro", GoVal.bool true)] [] testPlugin).2
    [("SupportMetro", GoVal.bool true)] [] rfl).1 rfl

/-- C7: `Validate` (for the SAN plugin and for the dtree plugin) leaves the
tracked session state of the plugin unchanged whether it succeeds or fails, and
on success its throwaway client is built, login-probed and logged out
immediately. -/
theorem validate_leaves_session_untouched (env : ValidateEnv)
    (p : OceanstorSanPlugin) {σ : Type} (q : σ) (config config2 : BackendConfig) :
    (sanValidate env p config).2.1 = p ∧
      ((sanValidate env p config).1 = .ok () →
        (sanValidate env p config).2.2 =
          [.newThrowawayClient, .probeLogin, .throwawayLogout]) ∧
      (dtreeValidate env q config2).2.1 = q ∧
      ((dtreeValidate env q config2).1 = .ok () →
        (dtreeValidate env q config2).2.2 =
          [.newThrowawayClient, .probeLogin, .throwawayLogout]) := by
  have hsan : ∀ r, sanValidate env p config = r →
      r.2.1 = p ∧ (r.1 = .ok () → r.2.2 =
        [.newThrowawayClient, .probeLogin, .throwawayLogout]) := by
    intro r hr
    rcases h1 : verifyOceanstorSanParam env config with e | u
    · rw [← hr]; simp [sanValidate, h1]
    · rcases h2 : env.getNewClientConfig with e | u2
      · rw [← hr]; simp [sanValidate, h1, h2]
      · rcases h3 : env.validateLogin with e | u3 <;>
          (rw [← hr]; simp [sanValidate, h1, h2, h3])
  have hdtree : ∀ r : Except ValidateError Unit × σ × List ValidateEvent,
      dtreeValidate env q config2 = r →
      r.2.1 = q ∧ (r.1 = .ok () → r.2.2 =
        [.newThrowawayClient, .probeLogin, .throwawayLogout]) := by
    intro r hr
    rcases h1 : env.dtreeGetNewClientConfig with e | u
    · rw [← hr]; simp [dtreeValidate, h1]
    · rcases h2 : verifyOceanstorDTreeParam config2 with e | u2
      · rw [← hr]; simp [dtreeValidate, h1, h2]
      · rcases h3 : env.dtreeNewClient with e | u3
        · rw [← hr]; simp [dtreeValidate, h1, h2, h3]
        · rcases h4 : env.dtreeValidateLogin with e | u4 <;>
            (rw [← hr]; simp [dtreeValidate, h1, h2, h3, h4])
  obtain ⟨ha, hb⟩ := hsan _ rfl
  obtain ⟨hc, hd⟩ := hdtree _ rfl
  exact ⟨ha, hb, hc, hd⟩

/-- Concrete instance for C7: a successful validation leaves the test
plugin state intact and logs the throwaway client out. -/
theorem validate_leaves_session_untouched_witness :
    (sanValidate testValidateEnv testPlugin testConfig).2.1 = testPlugin ∧
      (sanValidate testValidateEnv testPlugin testConfig).2.2 =
        [.newThrowawayClient, .probeLogin, .throwawayLogout] := by
  have h := validate_leaves_session_untouched testValidateEnv testPlugin
    (0 : Nat) testConfig testDTreeConfig
  exact ⟨h.1, h.2.1 rfl⟩

/-- Shape inversion for attach-result validation: a success can only come
from a two-element result whose error slot is nil and whose first slot is
the returned mapping. -/
theorem validateAttachResult_ok_shape (lunName : String) :
    ∀ out m, validateAttachResult lunName out = .ok m →
      out = [.mapVal m, .nilVal] := by
  intro out m h
  rcases out with _ | ⟨v0, out⟩
  · simp [validateAttachResult] at h
  · rcases out with _ | ⟨v1, out⟩
    · simp [validateAttachResult] at h
    · rcases out with _ | ⟨v2, out⟩
      · rcases v1 with m1 | e1 | _ | _
        · simp [validateAttachResult] at h
        · simp [validateAttachResult] at h
        · rcases v0 with m0 | e0 | _ | _ <;> simp [validateAttachResult] at h
          rw [h]
        · simp [validateAttachResult] at h
      · simp [validateAttachResult] at h

/-- C8: strategy results are validated before being returned: attach
succeeds only on a two-slot result with a nil error slot and a mapping
first slot; a wrong-length result, a populated error slot, or a non-map
mapping slot each produce an error; and a successful `AttachVolume` implies
the dispatched handler returned exactly such a well-formed pair. -/
theorem strategy_result_validated (lunName : String) (out : List RVal) :
    (∀ m, validateAttachResult lunName out = .ok m →
        out = [.mapVal m, .nilVal]) ∧
      (validateDetachResult lunName out = .ok () → ∃ v0, out = [v0, .nilVal]) ∧
      (out.length ≠ reflectResultLength →
        validateAttachResult lunName out = .fail (.attachResultMalformed lunName) ∧
          validateDetachResult lunName out = .fail (.detachResultMalformed lunName)) ∧
      (∀ v0 e, out = [v0, .errVal e] →
        validateAttachResult lunName out = .fail (.attacherErr e) ∧
          validateDetachResult lunName out = .fail (.attacherErr e)) ∧
      (∀ v0, out = [v0, .nilVal] → (∀ m2, v0 ≠ .mapVal m2) →
        validateAttachResult lunName out = .fail (.attachResultNotMap lunName)) ∧
      ∀ (env : ArrayEnv) (p : OceanstorSanPlugin) (name : String)
        (parameters m : GoMap) (ev : List Event),
        AttachVolume env p name parameters = (.ok m, ev) →
        ∃ lun, getLunInfo env p (env.makeLunName name) = .ok (some lun) ∧
          (handler env p lun parameters "ControllerAttach").1 =
            .ok [.mapVal m, .nilVal] := by
  refine ⟨validateAttachResult_ok_shape lunName out, ?_, ?_, ?_, ?_, ?_⟩
  · intro h
    rcases out with _ | ⟨v0, out⟩
    · simp [validateDetachResult] at h
    · rcases out with _ | ⟨v1, out⟩
      · simp [validateDetachResult] at h
      · rcases out with _ | ⟨v2, out⟩
        · rcases v1 with m1 | e1 | _ | _ <;> simp [validateDetachResult] at h
          exact ⟨v0, rfl⟩
        · simp [validateDetachResult] at h
  · intro hlen
    rcases out with _ | ⟨v0, out⟩
    · simp [validateAttachResult, validateDetachResult]
    · rcases out with _ | ⟨v1, out⟩
      · simp [validateAttachResult, validateDetachResult]
      · rcases out with _ | ⟨v2, out⟩
        · simp [reflectResultLength] at hlen
        · simp [validateAttachResult, validateDetachResult]
  · intro v0 e hout
    subst hout
    simp [validateAttachResult, validateDetachResult]
  · intro v0 hout hnm
    subst hout
    rcases v0 with m0 | e0 | _ | _
    · exact absurd rfl (hnm m0)
    · simp [validateAttachResult]
    · simp [validateAttachResult]
    · simp [validateAttachResult]
  · intro env p name parameters m ev h
    unfold AttachVolume at h
    split at h
    · simp at h
    · simp at h
    · rename_i lun heq
      split at h
      · simp at h
      · simp at h
      · rename_i outv ev0 heq2
        simp at h
        have houtv := validateAttachResult_ok_shape (env.makeLunName name)
          outv m h.1
        exact ⟨lun, heq, by simp [heq2, houtv]⟩

/-- Concrete instance for C8: a populated error slot is promoted to a
returned error by both validations. -/
theorem strategy_result_validated_witness :
    validateAttachResult "v" [RVal.otherVal, RVal.errVal "boom"] =
        .fail (.attacherErr "boom") ∧
      validateDetachResult "v" [RVal.otherVal, RVal.errVal "boom"] =
        .fail (.attacherErr "boom") :=
  (strategy_result_validated "v" [RVal.otherVal, RVal.errVal "boom"]).2.2.2.1
    RVal.otherVal "boom" rfl

/-- C10: the fusionstorage-san capability report is a constant function of
the plugin state: the literal thin/thick/qos/clone/label map, a nil
specification map and no error. -/
theorem fusion_capabilities_constant (p q : FusionStorageSanPlugin) :
    fusionUpdateBackendCapabilities p =
      ([("SupportThin", .bool true), ("SupportThick", .bool false),
        ("SupportQoS", .bool true), ("SupportClone", .bool true),
        ("SupportLabel", .bool false)], none, none) ∧
      fusionUpdateBackendCapabilities p = fusionUpdateBackendCapabilities q :=
  ⟨rfl, rfl⟩

end HuaweiCSI
